import Mathlib

/-!
# WhatsApp chatbot: message handler and Gemini gateway

A shallow embedding of `src/index.js` (the `client.on('message', ...)` handler and the
`conversationContext` map) and of `src/gemini-service.js` (`GeminiService.generateResponse`,
`GeminiService.generateSmartReply`), followed by theorems about them.

Conventions of the embedding.
* JavaScript strings are `String`s; every literal the code compares against is ASCII.
* A thrown JavaScript value is a `JsError`; code that may throw returns `Except JsError _`.
* `await` is sequential composition: one message is handled from start to end.
* `console.log` / `console.error` have no effect on the handler and are left out.
-/

namespace Chatbot

/-! ## JavaScript string primitives -/

/-- Code points removed by `String.prototype.trim`: ECMAScript WhiteSpace and LineTerminator. -/
def isJsWhiteSpace (c : Char) : Bool :=
  let n := c.toNat
  n = 0x09 || n = 0x0A || n = 0x0B || n = 0x0C || n = 0x0D || n = 0x20 || n = 0xA0 ||
  n = 0x1680 || (0x2000 ≤ n && n ≤ 0x200A) || n = 0x2028 || n = 0x2029 || n = 0x202F ||
  n = 0x205F || n = 0x3000 || n = 0xFEFF

/-- Characters of `s.trim()`. -/
def trimChars (cs : List Char) : List Char :=
  ((cs.dropWhile isJsWhiteSpace).reverse.dropWhile isJsWhiteSpace).reverse

/-- `s.trim()`. -/
def trim (s : String) : String := String.mk (trimChars s.data)

/-- Case mapping of the characters outside ASCII, a table of the JavaScript engine: it is given
the characters before, the character itself and the characters after (the mapping of capital
sigma depends on its neighbours) and returns the replacement characters. -/
abbrev UnicodeLower := List Char → Char → List Char → List Char

/-- Characters of `s.toLowerCase()`, left to right; `before` holds the characters already
passed. ASCII letters `A`..`Z` become `a`..`z`, other ASCII characters stay. -/
def lowerChars (uni : UnicodeLower) (before : List Char) : List Char → List Char
  | [] => []
  | c :: rest =>
    (if c.toNat < 128 then [c.toLower] else uni before c rest)
      ++ lowerChars uni (before ++ [c]) rest

/-- `s.toLowerCase()`. -/
def toLowerCase (uni : UnicodeLower) (s : String) : String :=
  String.mk (lowerChars uni [] s.data)

/-- Substring test on characters: `pat` occurs in `cs` as a contiguous block. -/
def includesChars (pat : List Char) : List Char → Bool
  | [] => pat.isEmpty
  | c :: cs => pat.isPrefixOf (c :: cs) || includesChars pat cs

/-- `s.includes(pat)`. -/
def includes (s pat : String) : Bool := includesChars pat.data s.data

/-- JavaScript truthiness of a string: the empty string is falsy. -/
def truthy (s : String) : Bool := !(s == "")

/-- `a || b` where `a` is a string that may be `undefined`. -/
def orElse (a : Option String) (b : String) : String :=
  match a with
  | some s => if truthy s then s else b
  | none => b

/-- `a || b || c` for two properties that may be `undefined` and a string literal. -/
def orElse2 (a b : Option String) (c : String) : String :=
  match a with
  | some s => if truthy s then s else orElse b c
  | none => orElse b c

/-- `n || 0` where `n` is a number that may be `undefined`. -/
def numOrZero (n : Option Nat) : Nat := n.getD 0

/-! ## Thrown values -/

/-- The value of the `message` property of a thrown value, as far as
`error.message.includes(...)` tells values apart. -/
inductive MessageValue where
  /-- The property is absent or `undefined`. -/
  | undefined
  /-- The property is `null`. -/
  | null
  /-- The property is a string. -/
  | string (s : String)
  /-- The property is an array; `strings` are its elements that are strings. -/
  | array (strings : List String)
  /-- Any other value, which has no `includes` method: a number, a boolean, a plain object. -/
  | other
  deriving DecidableEq, Repr

/-- A thrown JavaScript value, seen through what the code reads of it: `undefined` and `null`
have no properties; any other value (an `Error`, a string, an object) has the `message` given. -/
inductive JsError where
  | undefined
  | null
  | value (message : MessageValue)
  deriving DecidableEq, Repr

/-- A `TypeError` with the given message text (the texts are those of V8). -/
def typeError (text : String) : JsError := .value (.string text)

/-! ## `src/gemini-service.js` -/

/-- An entry of `context.messages`; `timestamp` is the value of `new Date()`. -/
structure Turn where
  sender : String
  text : String
  timestamp : Nat
  deriving DecidableEq, Repr

/-- Token counters `result.response.usageMetadata`, each possibly absent. -/
structure UsageMetadata where
  promptTokenCount : Option Nat
  candidatesTokenCount : Option Nat
  totalTokenCount : Option Nat
  deriving DecidableEq, Repr

/-- The value of `await this.model.generateContent(prompt)`: `text` is `response.text()`, which
may throw, and `usageMetadata` may be absent. -/
structure GenerateContentResult where
  text : Except JsError String
  usageMetadata : Option UsageMetadata

/-- The `usage` object of a successful result. -/
structure Usage where
  promptTokens : Nat
  completionTokens : Nat
  totalTokens : Nat
  deriving DecidableEq, Repr

/-- The object returned by `generateResponse`: with `success: true` it carries `response` and
`usage`, with `success: false` it carries `error` and `fallbackResponse`; `error` is a string literal or the value of `error.message`. -/
inductive AiResult where
  | success (response : String) (usage : Usage)
  | failure (error : MessageValue) (fallbackResponse : String)
  deriving DecidableEq, Repr

/-- The `success` field. -/
def AiResult.isSuccess : AiResult → Bool
  | .success _ _ => true
  | .failure _ _ => false

/-- The second argument of `generateResponse` (default `{}`): every property may be absent. -/
structure GenContext where
  userName : Option String
  chatType : Option String
  previousMessages : Option (List Turn)
  deriving DecidableEq, Repr

/-- A `GeminiService` instance: its `systemPrompt` and the backend call
`this.model.generateContent`, which returns a result or throws. -/
structure GeminiService where
  systemPrompt : String
  generateContent : String → Except JsError GenerateContentResult

/-- The `systemPrompt` set by the constructor. -/
def systemPrompt : String :=
  "You are a helpful WhatsApp AI assistant. Your responses should be:\n" ++
  "- Friendly and conversational\n" ++
  "- Concise but informative (keep responses under 200 words when possible)\n" ++
  "- Use emojis appropriately to make conversations engaging\n" ++
  "- Be helpful and try to provide practical solutions\n" ++
  "- If you don\x27t know something, admit it honestly\n" ++
  "- Avoid overly technical language unless specifically asked\n" ++
  "- Remember this is a WhatsApp chat, so format responses accordingly"

/-- The `forEach` over `context.previousMessages`, appending one line per entry. -/
def appendTranscript (prompt : String) : List Turn → String
  | [] => prompt
  | msg :: rest => appendTranscript (prompt ++ msg.sender ++ ": " ++ msg.text ++ "\n") rest

/-- The prompt built at the start of `generateResponse`. -/
def buildPrompt (svc : GeminiService) (userMessage : String) (context : GenContext) : String :=
  let prompt := svc.systemPrompt ++ "\n\n"
  let prompt :=
    match context.userName with
    | some n => if truthy n then prompt ++ "User\x27s name: " ++ n ++ "\n" else prompt
    | none => prompt
  let prompt :=
    match context.chatType with
    | some t => if truthy t then prompt ++ "Chat type: " ++ t ++ "\n" else prompt
    | none => prompt
  let prompt :=
    match context.previousMessages with
    | some (m :: ms) =>
      appendTranscript (prompt ++ "Recent conversation context:\n") (m :: ms) ++ "\n"
    | _ => prompt
  prompt ++ "Current user message: " ++ userMessage ++ "\n\nPlease respond as the AI assistant:"

/-- The `try` block of `generateResponse`. -/
def generateResponseTry (svc : GeminiService) (userMessage : String) (context : GenContext) :
    Except JsError AiResult :=
  match svc.generateContent (buildPrompt svc userMessage context) with
  | .error e => .error e
  | .ok result =>
    match result.text with
    | .error e => .error e
    | .ok text =>
      .ok (.success (trim text)
        { promptTokens := numOrZero (result.usageMetadata.bind (·.promptTokenCount))
          completionTokens := numOrZero (result.usageMetadata.bind (·.candidatesTokenCount))
          totalTokens := numOrZero (result.usageMetadata.bind (·.totalTokenCount)) })

/-- The evaluation of `error.message`: it raises a `TypeError` when the thrown value is
`undefined` or `null`. -/
def readMessage : JsError → Except JsError MessageValue
  | .undefined =>
    .error (typeError "Cannot read properties of undefined (reading \x27message\x27)")
  | .null => .error (typeError "Cannot read properties of null (reading \x27message\x27)")
  | .value message => .ok message

/-- The evaluation of `error.message.includes(pat)` for a string `pat`, given the value of
`error.message`: the substring test on a string, the membership test on an array, and a
`TypeError` on every other value. -/
def messageIncludes (message : MessageValue) (pat : String) : Except JsError Bool :=
  match message with
  | .undefined =>
    .error (typeError "Cannot read properties of undefined (reading \x27includes\x27)")
  | .null => .error (typeError "Cannot read properties of null (reading \x27includes\x27)")
  | .string s => .ok (includes s pat)
  | .array strings => .ok (strings.contains pat)
  | .other => .error (typeError "error.message.includes is not a function")

/-- The `catch (error)` block of `generateResponse`: the chain of tests on `error.message`.
Nothing encloses the block, so a `TypeError` raised by a test escapes `generateResponse`. -/
def generateResponseCatch (error : JsError) : Except JsError AiResult :=
  match readMessage error with
  | .error e => .error e
  | .ok message =>
    match messageIncludes message "API_KEY" with
    | .error e => .error e
    | .ok true =>
      .ok (.failure (.string "Invalid API key. Please check your Gemini API configuration.")
        "❌ Sorry, there\x27s an issue with the AI service configuration.")
    | .ok false =>
      match messageIncludes message "QUOTA_EXCEEDED" with
      | .error e => .error e
      | .ok true =>
        .ok (.failure (.string "API quota exceeded.")
          "⚠️ AI service is temporarily unavailable due to quota limits.")
      | .ok false =>
        match messageIncludes message "SAFETY" with
        | .error e => .error e
        | .ok true =>
          .ok (.failure (.string "Content filtered by safety settings.")
            "🚫 Sorry, I cannot respond to that type of content.")
        | .ok false =>
          .ok (.failure message
            "😅 Sorry, I\x27m having trouble processing that right now. Please try again!")

/-- `GeminiService.generateResponse(userMessage, context)`. -/
def generateResponse (svc : GeminiService) (userMessage : String) (context : GenContext) :
    Except JsError AiResult :=
  match generateResponseTry svc userMessage context with
  | .ok r => .ok r
  | .error e => generateResponseCatch e

/-- The prompt chosen by the `switch` of `generateSmartReply`. The handler passes no `content`,
so the `default` case quotes the string `undefined`. -/
def smartReplyPrompt (messageType : String) : String :=
  if messageType = "image" then
    "The user sent an image. Generate a friendly response acknowledging the image and asking if they need help with anything related to it."
  else if messageType = "document" then
    "The user sent a document. Generate a helpful response offering to help them with document-related questions."
  else if messageType = "audio" then
    "The user sent an audio message. Generate a friendly response acknowledging the audio and offering assistance."
  else if messageType = "video" then
    "The user sent a video. Generate an engaging response about the video and offer help if needed."
  else
    "Generate a helpful response to this message: \"undefined\""

/-- `GeminiService.generateSmartReply(messageType)`: the `catch` block returns a fixed string
and reads nothing from the thrown value. -/
def generateSmartReply (svc : GeminiService) (messageType : String) : String :=
  match svc.generateContent (smartReplyPrompt messageType) with
  | .error _ => "👋 Thanks for sharing! How can I help you today?"
  | .ok result =>
    match result.text with
    | .error _ => "👋 Thanks for sharing! How can I help you today?"
    | .ok text => trim text

/-! ## `src/index.js`: the message handler -/

/-- The value of `await message.getContact()`. -/
structure Contact where
  name : Option String
  pushname : Option String
  number : String

/-- The value of `await message.getChat()`; `sendStateTyping` is the outcome of
`await chat.sendStateTyping()`. -/
structure Chat where
  name : Option String
  isGroup : Bool
  sendStateTyping : Except JsError Unit

/-- An inbound message; `getContact` and `getChat` are the outcomes of the two lookups. -/
structure Message where
  «from» : String
  fromMe : Bool
  body : String
  type : String
  getContact : Except JsError Contact
  getChat : Except JsError Chat

/-- A value of the `conversationContext` map. -/
structure Context where
  messages : List Turn
  userName : String
  chatType : String
  deriving DecidableEq, Repr

/-- The `conversationContext` map, through `has` / `get`. -/
abbrev ConversationContext := String → Option Context

/-- `conversationContext.set(chatId, context)`. -/
def ConversationContext.set (m : ConversationContext) (chatId : String) (context : Context) :
    ConversationContext :=
  fun k => if k = chatId then some context else m k

/-- `conversationContext.delete(chatId)`. -/
def ConversationContext.delete (m : ConversationContext) (chatId : String) :
    ConversationContext :=
  fun k => if k = chatId then none else m k

/-- What the handler reads from the process while it handles one message. -/
structure Env where
  /-- The module variable `geminiService`, `null` when no API key is configured. -/
  geminiService : Option GeminiService
  /-- Case mapping used by `toLowerCase`. -/
  unicodeLower : UnicodeLower
  /-- The value of `new Date().toLocaleString()`. -/
  localeTime : String
  /-- The value of `Math.floor(process.uptime())`. -/
  uptimeSeconds : Nat
  /-- The value of `process.memoryUsage().heapUsed`. -/
  heapUsed : Nat
  /-- The value of `new Date()` when the user turn is pushed. -/
  userDate : Nat
  /-- The value of `new Date()` when the assistant turn is pushed. -/
  assistantDate : Nat

/-- A call made to the `GeminiService` instance. -/
inductive GatewayCall where
  | generateResponse (userMessage : String) (context : GenContext)
  | generateSmartReply (messageType : String)
  deriving DecidableEq, Repr

/-- The effects of one run of the handler so far: the map, the texts passed to
`message.reply` in order, and the calls made to the `GeminiService` instance in order. -/
structure Run where
  conversationContext : ConversationContext
  replies : List String
  gatewayCalls : List GatewayCall

/-- `await message.reply(text)`; the transport is taken not to fail. -/
def Run.reply (r : Run) (text : String) : Run :=
  { r with replies := r.replies ++ [text] }

/-- Records a call to the `GeminiService` instance. -/
def Run.call (r : Run) (c : GatewayCall) : Run :=
  { r with gatewayCalls := r.gatewayCalls ++ [c] }

/-- `arr.slice(-k)` for `k > 0`: the last `k` elements, or all when there are fewer. -/
def sliceLast (k : Nat) (arr : List α) : List α := arr.drop (arr.length - k)

/-- The `helpMessage` of `!help`. -/
def helpMessage : String :=
  "🤖 *WhatsApp AI Chatbot Commands:*\n\n" ++
  "• !ping - Test if bot is working\n" ++
  "• !help - Show this help message\n" ++
  "• !info - Get chat information\n" ++
  "• !time - Get current time\n" ++
  "• !clear - Clear conversation context\n" ++
  "• !status - Check AI service status\n\n" ++
  "💬 *Just send any message and I\x27ll respond with AI!*"

/-- The text of `geminiService ? '✅ Active' : '❌ Disabled'`. -/
def aiServiceText (env : Env) : String :=
  if env.geminiService.isSome then "✅ Active" else "❌ Disabled"

/-- The `chatInfo` of `!info`. -/
def chatInfo (env : Env) (message : Message) (contact : Contact) (chat : Chat) : String :=
  "📊 *Chat Information:*\n\n" ++
  "• Chat Name: " ++ orElse chat.name "N/A" ++ "\n" ++
  "• Contact Name: " ++ orElse2 contact.name contact.pushname "Unknown" ++ "\n" ++
  "• Phone Number: " ++ contact.number ++ "\n" ++
  "• Is Group: " ++ (if chat.isGroup then "Yes" else "No") ++ "\n" ++
  "• Message Type: " ++ message.type ++ "\n" ++
  "• AI Service: " ++ aiServiceText env

/-- The `statusMessage` of `!status`; `Math.round(heapUsed / 1024 / 1024)` rounds half up. -/
def statusMessage (env : Env) : String :=
  "🔧 *Bot Status:*\n\n" ++
  "• WhatsApp Client: ✅ Connected\n" ++
  "• AI Service: " ++ aiServiceText env ++ "\n" ++
  "• Server Uptime: " ++ toString env.uptimeSeconds ++ " seconds\n" ++
  "• Memory Usage: " ++ toString ((env.heapUsed + 524288) / 1048576) ++ " MB"

/-- The `messageBody` the commands are compared with: `message.body.toLowerCase().trim()`. -/
def messageBody (env : Env) (message : Message) : String :=
  trim (toLowerCase env.unicodeLower message.body)

/-- The command handling of the handler (the six `if (messageBody === ...)` blocks): `some r`
when a command matched, replied and returned, `none` when the handler goes on. -/
def commandRouter (env : Env) (message : Message) (contact : Contact) (chat : Chat) (r : Run) :
    Option Run :=
  let chatId := message.«from»
  let messageBody := messageBody env message
  if messageBody = "!ping" then
    some (r.reply "🏓 Pong! Bot is working!")
  else if messageBody = "!help" then
    some (r.reply helpMessage)
  else if messageBody = "!info" then
    some (r.reply (chatInfo env message contact chat))
  else if messageBody = "!time" then
    some (r.reply ("🕐 Current time: " ++ env.localeTime))
  else if messageBody = "!clear" then
    some ({ r with conversationContext := r.conversationContext.delete chatId }.reply
      "🗑️ Conversation context cleared!")
  else if messageBody = "!status" then
    some (r.reply (statusMessage env))
  else
    none

/-- One media block: with a service, reply with `generateSmartReply(kind)`, else with the
fixed notice. -/
def mediaReply (env : Env) (kind : String) (disabled : String) (r : Run) : Run :=
  match env.geminiService with
  | some svc => (r.call (.generateSmartReply kind)).reply (generateSmartReply svc kind)
  | none => r.reply disabled

/-- The four `if (message.type === ...)` blocks for media: `some r` when one matched, replied
and returned. -/
def mediaRouter (env : Env) (message : Message) (r : Run) : Option Run :=
  if message.type = "image" then
    some (mediaReply env "image"
      "📸 Nice image! Unfortunately, AI features are currently disabled." r)
  else if message.type = "document" then
    some (mediaReply env "document"
      "📄 Thanks for the document! AI analysis is currently unavailable." r)
  else if message.type = "ptt" ∨ message.type = "audio" then
    some (mediaReply env "audio"
      "🎵 Got your audio message! AI features are currently disabled." r)
  else if message.type = "video" then
    some (mediaReply env "video"
      "🎥 Thanks for the video! AI analysis is currently unavailable." r)
  else
    none

/-- Get or create the conversation context: the `has` / `set` / `get` on the map. -/
def getOrCreate (m : ConversationContext) (chatId : String) (contact : Contact) (chat : Chat) :
    ConversationContext × Context :=
  match m chatId with
  | some context => (m, context)
  | none =>
    let context : Context :=
      { messages := []
        userName := orElse2 contact.name contact.pushname "User"
        chatType := if chat.isGroup then "group" else "individual" }
    (m.set chatId context, context)

/-- Add the user message to the context, then keep only the last 10 messages. -/
def appendUser (env : Env) (message : Message) (context : Context) : Context :=
  let context :=
    { context with
      messages := context.messages ++
        [{ sender := context.userName, text := message.body, timestamp := env.userDate }] }
  if context.messages.length > 10 then
    { context with messages := sliceLast 10 context.messages }
  else
    context

/-- The second argument passed to `generateResponse`. -/
def requestContext (context : Context) : GenContext :=
  { userName := some context.userName
    chatType := some context.chatType
    previousMessages := some (sliceLast 5 context.messages) }

/-- Add the AI response to the context (no truncation follows this push). -/
def appendAssistant (env : Env) (response : String) (context : Context) : Context :=
  { context with
    messages := context.messages ++
      [{ sender := "AI Assistant", text := response, timestamp := env.assistantDate }] }

/-- The inner `try` block of the text branch. The context object is shared with the map, so
each change to it is written to the map. -/
def textTry (env : Env) (svc : GeminiService) (message : Message) (contact : Contact)
    (chat : Chat) (r : Run) : Run × Except JsError Unit :=
  match chat.sendStateTyping with
  | .error e => (r, .error e)
  | .ok () =>
    let chatId := message.«from»
    let (m, context) := getOrCreate r.conversationContext chatId contact chat
    let context := appendUser env message context
    let r := { r with conversationContext := m.set chatId context }
    let r := r.call (.generateResponse message.body (requestContext context))
    match generateResponse svc message.body (requestContext context) with
    | .error e => (r, .error e)
    | .ok (.success response _) =>
      let context := appendAssistant env response context
      let r := { r with conversationContext := r.conversationContext.set chatId context }
      (r.reply response, .ok ())
    | .ok (.failure _ fallbackResponse) =>
      (r.reply (if truthy fallbackResponse then fallbackResponse
        else "😅 Sorry, I\x27m having trouble right now. Please try again!"), .ok ())

/-- The text branch: `if (message.type === 'chat' && message.body.trim())`, with no `else`. -/
def textBranch (env : Env) (message : Message) (contact : Contact) (chat : Chat) (r : Run) :
    Run :=
  if message.type = "chat" ∧ truthy (trim message.body) = true then
    match env.geminiService with
    | none =>
      r.reply "🤖 AI service is currently disabled. Please configure your Gemini API key."
    | some svc =>
      match textTry env svc message contact chat r with
      | (r, .ok ()) => r
      | (r, .error _) =>
        r.reply "❌ Sorry, there was an error processing your message. Please try again!"
  else
    r

/-- The outer `try` block of the handler. -/
def handlerTry (env : Env) (message : Message) (r : Run) : Run × Except JsError Unit :=
  if message.«from» = "status@broadcast" then (r, .ok ())
  else if message.fromMe then (r, .ok ())
  else
    match message.getContact with
    | .error e => (r, .error e)
    | .ok contact =>
      match message.getChat with
      | .error e => (r, .error e)
      | .ok chat =>
        match commandRouter env message contact chat r with
        | some r => (r, .ok ())
        | none =>
          match mediaRouter env message r with
          | some r => (r, .ok ())
          | none => (textBranch env message contact chat r, .ok ())

/-- The handler `client.on('message', async (message) => ...)`, run on the map `m`: the
effects of the run and, in the second component, the exception that escapes, if any. -/
def handler (env : Env) (message : Message) (m : ConversationContext) :
    Run × Except JsError Unit :=
  match handlerTry env message ⟨m, [], []⟩ with
  | (r, .ok ()) => (r, .ok ())
  | (r, .error _) => (r.reply "❌ Sorry, there was an unexpected error.", .ok ())

/-- The map after the handler has handled the given messages one after the other. -/
def handleAll (m : ConversationContext) : List (Env × Message) → ConversationContext
  | [] => m
  | (env, message) :: rest => handleAll (handler env message m).1.conversationContext rest

/-! ## Inputs used in the closed statements -/

/-- The value thrown by the backend during the `try` block of `generateResponse`, if any:
by `generateContent` itself or by `response.text()`. -/
def backendThrows (svc : GeminiService) (prompt : String) : Option JsError :=
  match svc.generateContent prompt with
  | .error e => some e
  | .ok result =>
    match result.text with
    | .error e => some e
    | .ok _ => none

/-- A service whose backend throws the value `e` on every call. -/
def throwingService (e : JsError) : GeminiService :=
  ⟨systemPrompt, fun _ => .error e⟩

/-- A service whose backend answers every call with `text` and no usage metadata. -/
def answeringService (text : String) : GeminiService :=
  ⟨systemPrompt, fun _ => .ok ⟨.ok text, none⟩⟩

/-- The empty generation context `{}`. -/
def noContext : GenContext := ⟨none, none, none⟩

/-- The result returned for an `API_KEY` failure. -/
def invalidKeyResult : AiResult :=
  .failure (.string "Invalid API key. Please check your Gemini API configuration.")
    "❌ Sorry, there\x27s an issue with the AI service configuration."

/-- The result returned for a `QUOTA_EXCEEDED` failure. -/
def quotaResult : AiResult :=
  .failure (.string "API quota exceeded.")
    "⚠️ AI service is temporarily unavailable due to quota limits."

/-- The result returned for a `SAFETY` failure. -/
def safetyResult : AiResult :=
  .failure (.string "Content filtered by safety settings.")
    "🚫 Sorry, I cannot respond to that type of content."

/-- The result returned for any other failure with message `s`. -/
def unknownResult (s : String) : AiResult :=
  .failure (.string s) "😅 Sorry, I\x27m having trouble processing that right now. Please try again!"

/-- The six bodies compared with `messageBody` by the command handling. -/
def commands : List String := ["!ping", "!help", "!info", "!time", "!clear", "!status"]

/-- The values of `message.type` that the media blocks compare with. -/
def mediaTypes : List String := ["image", "document", "ptt", "audio", "video"]

/-- A contact with a saved name. -/
def annContact : Contact := ⟨some "Ann", none, "15550100"⟩

/-- An individual chat whose typing indicator works. -/
def annChat : Chat := ⟨none, false, .ok ()⟩

/-- A message of conversation `c` with the given type and body, whose lookups succeed. -/
def inbound (type body : String) : Message :=
  ⟨"c", false, body, type, .ok annContact, .ok annChat⟩

/-- A process with the given service; characters outside ASCII are left as they are. -/
def processWith (svc : Option GeminiService) : Env :=
  ⟨svc, fun _ c _ => [c], "1/1/2025, 12:00:00 PM", 5, 1000000, 1, 2⟩

/-- A `!clear` message of conversation `c` that the bot itself sent. -/
def ownClear : Message := { inbound "chat" "!clear" with fromMe := true }

/-- A `!clear` message of conversation `c` whose contact lookup rejects. -/
def lostContactClear : Message :=
  { inbound "chat" "!clear" with getContact := .error (.value (.string "Evaluation failed")) }

/-- The map with no conversation. -/
def noConversations : ConversationContext := fun _ => none

/-- A map in which conversation `c` holds three turns. -/
def threeTurns : ConversationContext :=
  noConversations.set "c"
    ⟨[⟨"Ann", "Hello", 1⟩, ⟨"AI Assistant", "Hi!", 2⟩, ⟨"Ann", "How are you?", 3⟩],
      "Ann", "individual"⟩

/-! ## Lemmas on the string primitives -/

theorem includesChars_iff (pat cs : List Char) :
    includesChars pat cs = true ↔ pat <:+: cs := by
  induction cs with
  | nil =>
    cases pat <;> simp [includesChars]
  | cons c cs ih =>
    simp only [includesChars, Bool.or_eq_true, ih, List.isPrefixOf_iff_prefix]
    constructor
    · rintro (h | h)
      · exact h.isInfix
      · exact h.trans (List.suffix_cons c cs).isInfix
    · intro h
      rcases List.infix_cons_iff.mp h with h | h
      · exact Or.inl h
      · exact Or.inr h

theorem includes_iff (s pat : String) : includes s pat = true ↔ pat.data <:+: s.data :=
  includesChars_iff pat.data s.data

/-! ## The gateway: `generateResponse` -/

theorem generateResponse_of_throws (svc : GeminiService) (userMessage : String)
    (context : GenContext) (e : JsError)
    (h : backendThrows svc (buildPrompt svc userMessage context) = some e) :
    generateResponse svc userMessage context = generateResponseCatch e := by
  unfold backendThrows at h
  unfold generateResponse generateResponseTry
  cases hg : svc.generateContent (buildPrompt svc userMessage context) with
  | error e1 =>
    rw [hg] at h
    simp only [Option.some.injEq] at h
    simp [h]
  | ok result =>
    rw [hg] at h
    dsimp only at h ⊢
    cases ht : result.text with
    | error e1 =>
      rw [ht] at h
      simp only [Option.some.injEq] at h
      simp [h]
    | ok t =>
      rw [ht] at h
      simp at h

theorem generateResponseCatch_string (s : String) :
    generateResponseCatch (.value (.string s)) =
      .ok (if includes s "API_KEY" then invalidKeyResult
           else if includes s "QUOTA_EXCEEDED" then quotaResult
           else if includes s "SAFETY" then safetyResult
           else unknownResult s) := by
  unfold generateResponseCatch readMessage messageIncludes
  dsimp only
  cases h1 : includes s "API_KEY"
  · cases h2 : includes s "QUOTA_EXCEEDED"
    · cases h3 : includes s "SAFETY"
      · simp [unknownResult]
      · simp [safetyResult]
    · simp [quotaResult]
  · simp [invalidKeyResult]

theorem generateResponseCatch_fallback (e : JsError) (error : MessageValue)
    (fallbackResponse : String)
    (h : generateResponseCatch e = .ok (.failure error fallbackResponse)) :
    truthy fallbackResponse = true := by
  unfold generateResponseCatch at h
  cases hr : readMessage e with
  | error e1 => rw [hr] at h; simp at h
  | ok message =>
    rw [hr] at h
    dsimp only at h
    cases h1 : messageIncludes message "API_KEY" with
    | error e1 => rw [h1] at h; simp at h
    | ok b1 =>
      rw [h1] at h
      cases b1 with
      | true =>
        simp only [Except.ok.injEq, AiResult.failure.injEq] at h
        rw [← h.2]; decide
      | false =>
        dsimp only at h
        cases h2 : messageIncludes message "QUOTA_EXCEEDED" with
        | error e1 => rw [h2] at h; simp at h
        | ok b2 =>
          rw [h2] at h
          cases b2 with
          | true =>
            simp only [Except.ok.injEq, AiResult.failure.injEq] at h
            rw [← h.2]; decide
          | false =>
            dsimp only at h
            cases h3 : messageIncludes message "SAFETY" with
            | error e1 => rw [h3] at h; simp at h
            | ok b3 =>
              rw [h3] at h
              cases b3 with
              | true =>
                simp only [Except.ok.injEq, AiResult.failure.injEq] at h
                rw [← h.2]; decide
              | false =>
                simp only [Except.ok.injEq, AiResult.failure.injEq] at h
                rw [← h.2]; decide

theorem generateResponse_failure_fallback (svc : GeminiService) (userMessage : String)
    (context : GenContext) (error : MessageValue) (fallbackResponse : String)
    (h : generateResponse svc userMessage context = .ok (.failure error fallbackResponse)) :
    truthy fallbackResponse = true := by
  unfold generateResponse at h
  cases ht : generateResponseTry svc userMessage context with
  | ok r =>
    rw [ht] at h
    unfold generateResponseTry at ht
    cases hg : svc.generateContent (buildPrompt svc userMessage context) with
    | error e1 => rw [hg] at ht; simp at ht
    | ok result =>
      rw [hg] at ht
      dsimp only at ht
      cases hx : result.text with
      | error e1 => rw [hx] at ht; simp at ht
      | ok t =>
        rw [hx] at ht
        simp only [Except.ok.injEq] at ht h
        rw [← ht] at h
        simp at h
  | error e =>
    rw [ht] at h
    exact generateResponseCatch_fallback e error fallbackResponse h

/-- C3: when the backend fails with an error whose message is the string `s`,
`generateResponse` returns a failure result (`success` false) chosen by the first test that
matches, in the order `API_KEY`, `QUOTA_EXCEEDED`, `SAFETY`, else the unknown result whose
`error` is `s` itself. -/
theorem generateResponse_classifies (svc : GeminiService) (userMessage : String)
    (context : GenContext) (s : String)
    (h : backendThrows svc (buildPrompt svc userMessage context) = some (.value (.string s))) :
    ∃ r, generateResponse svc userMessage context = .ok r ∧ r.isSuccess = false ∧
      r = (if includes s "API_KEY" then invalidKeyResult
           else if includes s "QUOTA_EXCEEDED" then quotaResult
           else if includes s "SAFETY" then safetyResult
           else unknownResult s) := by
  refine ⟨_, ?_, ?_, rfl⟩
  · rw [generateResponse_of_throws svc userMessage context _ h]
    exact generateResponseCatch_string s
  · split_ifs <;> rfl

theorem generateResponse_classifies_witness :
    ∃ r, generateResponse (throwingService (.value (.string "blocked: SAFETY"))) "hi"
        noContext = .ok r ∧
      r.isSuccess = false ∧
      r = (if includes "blocked: SAFETY" "API_KEY" then invalidKeyResult
           else if includes "blocked: SAFETY" "QUOTA_EXCEEDED" then quotaResult
           else if includes "blocked: SAFETY" "SAFETY" then safetyResult
           else unknownResult "blocked: SAFETY") :=
  generateResponse_classifies (throwingService (.value (.string "blocked: SAFETY"))) "hi"
    noContext "blocked: SAFETY" rfl

/-- C4 as stated fails: the message `API_KEY QUOTA_EXCEEDED` contains the quota marker, yet
the result is the invalid-key result and not the quota result. -/
theorem quota_marker_counterexample :
    includes "API_KEY QUOTA_EXCEEDED" "QUOTA_EXCEEDED" = true ∧
    backendThrows (throwingService (.value (.string "API_KEY QUOTA_EXCEEDED")))
      (buildPrompt (throwingService (.value (.string "API_KEY QUOTA_EXCEEDED"))) "hi"
        noContext) = some (.value (.string "API_KEY QUOTA_EXCEEDED")) ∧
    generateResponse (throwingService (.value (.string "API_KEY QUOTA_EXCEEDED"))) "hi"
      noContext = .ok invalidKeyResult ∧
    invalidKeyResult ≠ quotaResult := by
  exact ⟨by decide, rfl, rfl, by decide⟩

/-- C4 amended: when the backend fails with a message that contains `QUOTA_EXCEEDED` and does
not contain `API_KEY`, `generateResponse` returns the quota result, whatever else the message
contains. -/
theorem generateResponse_quota (svc : GeminiService) (userMessage : String)
    (context : GenContext) (s : String)
    (h : backendThrows svc (buildPrompt svc userMessage context) = some (.value (.string s)))
    (hq : includes s "QUOTA_EXCEEDED" = true) (hk : includes s "API_KEY" = false) :
    generateResponse svc userMessage context = .ok quotaResult := by
  rw [generateResponse_of_throws svc userMessage context _ h, generateResponseCatch_string]
  simp [hq, hk]

theorem generateResponse_quota_witness :
    generateResponse (throwingService (.value (.string "SAFETY and QUOTA_EXCEEDED"))) "hi"
      noContext = .ok quotaResult :=
  generateResponse_quota (throwingService (.value (.string "SAFETY and QUOTA_EXCEEDED"))) "hi"
    noContext "SAFETY and QUOTA_EXCEEDED" rfl (by decide) (by decide)

/-- C10 at the failing inputs: the backend throws a value that has no `message` (a string, or
an object without the property), or throws `undefined`; the `catch` block of
`generateResponse` raises a `TypeError`, which escapes `generateResponse`. -/
theorem generateResponse_escapes :
    generateResponse (throwingService (.value .undefined)) "hi" noContext =
      .error (typeError "Cannot read properties of undefined (reading \x27includes\x27)") ∧
    generateResponse (throwingService .undefined) "hi" noContext =
      .error (typeError "Cannot read properties of undefined (reading \x27message\x27)") := by
  exact ⟨rfl, rfl⟩

/-- Whenever the thrown value carries a message that is a string or an array, and on every
backend answer, `generateResponse` returns a result: a success, or a failure with a non-empty
`fallbackResponse`. -/
theorem generateResponse_returns (svc : GeminiService) (userMessage : String)
    (context : GenContext)
    (h : ∀ e, backendThrows svc (buildPrompt svc userMessage context) = some e →
      (∃ s, e = .value (.string s)) ∨ (∃ strings, e = .value (.array strings))) :
    ∃ r, generateResponse svc userMessage context = .ok r ∧
      ((∃ response usage, r = .success response usage) ∨
       (∃ error fallbackResponse, r = .failure error fallbackResponse ∧
          truthy fallbackResponse = true)) := by
  cases hb : backendThrows svc (buildPrompt svc userMessage context) with
  | some e =>
    rw [generateResponse_of_throws svc userMessage context e hb]
    have hr : ∃ r, generateResponseCatch e = .ok r := by
      rcases h e hb with ⟨s, rfl⟩ | ⟨strings, rfl⟩
      · exact ⟨_, generateResponseCatch_string s⟩
      · unfold generateResponseCatch readMessage messageIncludes
        dsimp only
        cases strings.contains "API_KEY"
        · cases strings.contains "QUOTA_EXCEEDED"
          · cases strings.contains "SAFETY"
            · exact ⟨_, rfl⟩
            · exact ⟨_, rfl⟩
          · exact ⟨_, rfl⟩
        · exact ⟨_, rfl⟩
    obtain ⟨r, hr⟩ := hr
    refine ⟨r, hr, ?_⟩
    cases r with
    | success response usage => exact Or.inl ⟨_, _, rfl⟩
    | failure error fallbackResponse =>
      exact Or.inr ⟨_, _, rfl, generateResponseCatch_fallback e _ _ hr⟩
  | none =>
    unfold backendThrows at hb
    unfold generateResponse generateResponseTry
    cases hg : svc.generateContent (buildPrompt svc userMessage context) with
    | error e1 => rw [hg] at hb; simp at hb
    | ok result =>
      rw [hg] at hb
      dsimp only at hb ⊢
      cases hx : result.text with
      | error e1 => rw [hx] at hb; simp at hb
      | ok t => exact ⟨_, rfl, Or.inl ⟨_, _, rfl⟩⟩

/-! ## The handler -/

theorem commandRouter_eq_none_iff (env : Env) (message : Message) (contact : Contact)
    (chat : Chat) (r : Run) :
    commandRouter env message contact chat r = none ↔ messageBody env message ∉ commands := by
  unfold commandRouter
  simp only [commands, List.mem_cons, List.mem_singleton, List.not_mem_nil, or_false, not_or]
  split_ifs <;> simp [*]

theorem handlerTry_of_lookups (env : Env) (message : Message) (r : Run) (contact : Contact)
    (chat : Chat) (hfrom : message.«from» ≠ "status@broadcast") (hme : message.fromMe = false)
    (hc : message.getContact = .ok contact) (hch : message.getChat = .ok chat) :
    handlerTry env message r =
      match commandRouter env message contact chat r with
      | some r => (r, .ok ())
      | none =>
        match mediaRouter env message r with
        | some r => (r, .ok ())
        | none => (textBranch env message contact chat r, .ok ()) := by
  unfold handlerTry
  simp [hfrom, hme, hc, hch]

theorem mediaRouter_of_chat (env : Env) (message : Message) (r : Run)
    (htype : message.type = "chat") : mediaRouter env message r = none := by
  unfold mediaRouter
  simp [htype]

theorem handler_text (env : Env) (message : Message) (m : ConversationContext)
    (contact : Contact) (chat : Chat) (svc : GeminiService)
    (hfrom : message.«from» ≠ "status@broadcast") (hme : message.fromMe = false)
    (hc : message.getContact = .ok contact) (hch : message.getChat = .ok chat)
    (hcmd : messageBody env message ∉ commands)
    (htype : message.type = "chat") (hbody : truthy (trim message.body) = true)
    (hsvc : env.geminiService = some svc) :
    handler env message m =
      match textTry env svc message contact chat ⟨m, [], []⟩ with
      | (r, .ok ()) => (r, .ok ())
      | (r, .error _) =>
        (r.reply "❌ Sorry, there was an error processing your message. Please try again!",
          .ok ()) := by
  unfold handler
  rw [handlerTry_of_lookups env message _ contact chat hfrom hme hc hch,
    (commandRouter_eq_none_iff env message contact chat _).mpr hcmd,
    mediaRouter_of_chat env message _ htype]
  simp only [textBranch, htype, hbody, and_self, if_true, hsvc]
  rcases textTry env svc message contact chat ⟨m, [], []⟩ with ⟨r, (e | u)⟩ <;> rfl

theorem text_failure_outcome (env : Env) (message : Message) (m : ConversationContext)
    (contact : Contact) (chat : Chat) (svc : GeminiService) (error : MessageValue)
    (fallbackResponse : String)
    (hfrom : message.«from» ≠ "status@broadcast") (hme : message.fromMe = false)
    (hc : message.getContact = .ok contact) (hch : message.getChat = .ok chat)
    (hcmd : messageBody env message ∉ commands)
    (htype : message.type = "chat") (hbody : truthy (trim message.body) = true)
    (hsvc : env.geminiService = some svc)
    (htyping : chat.sendStateTyping = .ok ())
    (hgen : generateResponse svc message.body
      (requestContext (appendUser env message (getOrCreate m message.«from» contact chat).2)) =
        .ok (.failure error fallbackResponse)) :
    (handler env message m).1.conversationContext message.«from» =
        some (appendUser env message (getOrCreate m message.«from» contact chat).2) ∧
    (handler env message m).1.replies = [fallbackResponse] ∧
    (handler env message m).2 = .ok () := by
  have hfb := generateResponse_failure_fallback _ _ _ _ _ hgen
  rw [handler_text env message m contact chat svc hfrom hme hc hch hcmd htype hbody hsvc]
  simp [textTry, htyping, hgen, hfb, Run.reply, Run.call, ConversationContext.set]

theorem text_success_outcome (env : Env) (message : Message) (m : ConversationContext)
    (contact : Contact) (chat : Chat) (svc : GeminiService) (t : String) (usage : Usage)
    (hfrom : message.«from» ≠ "status@broadcast") (hme : message.fromMe = false)
    (hc : message.getContact = .ok contact) (hch : message.getChat = .ok chat)
    (hcmd : messageBody env message ∉ commands)
    (htype : message.type = "chat") (hbody : truthy (trim message.body) = true)
    (hsvc : env.geminiService = some svc)
    (htyping : chat.sendStateTyping = .ok ())
    (hnew : m message.«from» = none)
    (hgen : generateResponse svc message.body
      (requestContext (appendUser env message (getOrCreate m message.«from» contact chat).2)) =
        .ok (.success t usage)) :
    (∃ context, (handler env message m).1.conversationContext message.«from» = some context ∧
      context.userName = orElse2 contact.name contact.pushname "User" ∧
      context.messages =
        [⟨context.userName, message.body, env.userDate⟩,
         ⟨"AI Assistant", t, env.assistantDate⟩]) ∧
    (handler env message m).1.replies = [t] := by
  rw [handler_text env message m contact chat svc hfrom hme hc hch hcmd htype hbody hsvc]
  simp [textTry, htyping, hgen, Run.reply, Run.call, ConversationContext.set, appendAssistant]
  simp [getOrCreate, hnew, appendUser]

/-- C8 amended: for every map and every message that reaches the command handling (the sender
is not `status@broadcast`, the message is not from the bot itself, the contact and the chat are
found) whose lowercased and trimmed body is `!clear`, the handler removes the context of the
conversation from the map and leaves the others, sends exactly the fixed confirmation, and
calls the service not at all; a get-or-create of the conversation right after yields a context
with an empty history. -/
theorem clear_command (env : Env) (message : Message) (m : ConversationContext)
    (contact : Contact) (chat : Chat)
    (hfrom : message.«from» ≠ "status@broadcast") (hme : message.fromMe = false)
    (hc : message.getContact = .ok contact) (hch : message.getChat = .ok chat)
    (hbody : messageBody env message = "!clear") :
    (handler env message m).1.conversationContext message.«from» = none ∧
    (∀ k, k ≠ message.«from» → (handler env message m).1.conversationContext k = m k) ∧
    (handler env message m).1.replies = ["🗑️ Conversation context cleared!"] ∧
    (handler env message m).1.gatewayCalls = [] ∧
    (handler env message m).2 = .ok () ∧
    ∀ contact2 chat2,
      (getOrCreate (handler env message m).1.conversationContext message.«from»
        contact2 chat2).2.messages = [] := by
  have h : handler env message m =
      (⟨m.delete message.«from», ["🗑️ Conversation context cleared!"], []⟩, .ok ()) := by
    unfold handler
    rw [handlerTry_of_lookups env message _ contact chat hfrom hme hc hch]
    simp [commandRouter, hbody, Run.reply]
  rw [h]
  refine ⟨?_, ?_, rfl, rfl, rfl, ?_⟩
  · simp [ConversationContext.delete]
  · intro k hk
    simp [ConversationContext.delete, hk]
  · intro contact2 chat2
    simp [getOrCreate, ConversationContext.delete]

theorem messageBody_ping (env : Env) (message : Message)
    (h : message.body = "!ping" ∨ message.body = " !PING ") :
    messageBody env message = "!ping" := by
  unfold messageBody toLowerCase
  rcases h with h | h <;> rw [h] <;> rfl

theorem messageBody_ping_now (env : Env) (message : Message)
    (h : message.body = "!ping now") :
    messageBody env message = "!ping now" := by
  unfold messageBody toLowerCase
  rw [h]; rfl

theorem commandRouter_congr (env : Env) (message : Message) (body2 : String)
    (contact : Contact) (chat : Chat) (r : Run)
    (h : messageBody env message = messageBody env { message with body := body2 }) :
    commandRouter env message contact chat r =
      commandRouter env { message with body := body2 } contact chat r := by
  unfold commandRouter chatInfo
  rw [← h]

theorem commandRouter_isSome_iff (env : Env) (message : Message) (contact : Contact)
    (chat : Chat) (r : Run) :
    (commandRouter env message contact chat r).isSome = true ↔
      messageBody env message ∈ commands := by
  rw [← not_iff_not, ← commandRouter_eq_none_iff env message contact chat r]
  cases commandRouter env message contact chat r <;> simp

/-- C9: the command handling depends on the body only through its lowercased and trimmed form
and compares that form for equality with the six commands. Two bodies with the same form get
the same decision, the same reply and the same effect; `!ping` and ` !PING ` both get the pong
reply; a body is treated as a command exactly when its form is one of the six; `!ping now` is
not a command; and a message that is not a command goes on to the media and text blocks. -/
theorem command_recognition :
    (∀ (env : Env) (message : Message) (body2 : String) (contact : Contact) (chat : Chat)
        (r : Run),
      messageBody env message = messageBody env { message with body := body2 } →
      commandRouter env message contact chat r =
        commandRouter env { message with body := body2 } contact chat r) ∧
    (∀ (env : Env) (message : Message) (contact : Contact) (chat : Chat) (r : Run),
      message.body = "!ping" ∨ message.body = " !PING " →
      commandRouter env message contact chat r = some (r.reply "🏓 Pong! Bot is working!")) ∧
    (∀ (env : Env) (message : Message) (contact : Contact) (chat : Chat) (r : Run),
      (commandRouter env message contact chat r).isSome = true ↔
        messageBody env message ∈ ["!ping", "!help", "!info", "!time", "!clear", "!status"]) ∧
    (∀ (env : Env) (message : Message) (contact : Contact) (chat : Chat) (r : Run),
      message.body = "!ping now" → commandRouter env message contact chat r = none) ∧
    (∀ (env : Env) (message : Message) (contact : Contact) (chat : Chat) (r : Run),
      message.«from» ≠ "status@broadcast" → message.fromMe = false →
      message.getContact = .ok contact → message.getChat = .ok chat →
      messageBody env message ∉ ["!ping", "!help", "!info", "!time", "!clear", "!status"] →
      handlerTry env message r =
        match mediaRouter env message r with
        | some r => (r, .ok ())
        | none => (textBranch env message contact chat r, .ok ())) := by
  refine ⟨commandRouter_congr, ?_, commandRouter_isSome_iff, ?_, ?_⟩
  · intro env message contact chat r h
    unfold commandRouter
    simp [messageBody_ping env message h]
  · intro env message contact chat r h
    rw [commandRouter_eq_none_iff, messageBody_ping_now env message h]
    decide
  · intro env message contact chat r hfrom hme hc hch hcmd
    rw [handlerTry_of_lookups env message r contact chat hfrom hme hc hch,
      (commandRouter_eq_none_iff env message contact chat r).mpr hcmd]

theorem commandRouter_replies (env : Env) (message : Message) (contact : Contact)
    (chat : Chat) (r r1 : Run) (h : commandRouter env message contact chat r = some r1) :
    r1.replies.length = r.replies.length + 1 ∧ r1.gatewayCalls = r.gatewayCalls := by
  unfold commandRouter at h
  dsimp only at h
  split_ifs at h <;> simp only [Option.some.injEq, reduceCtorEq] at h <;> subst h <;>
    simp [Run.reply]

theorem mediaReply_replies (env : Env) (kind disabled : String) (r : Run) :
    (mediaReply env kind disabled r).replies.length = r.replies.length + 1 := by
  unfold mediaReply
  cases env.geminiService <;> simp [Run.reply, Run.call]

theorem mediaRouter_replies (env : Env) (message : Message) (r r1 : Run)
    (h : mediaRouter env message r = some r1) :
    r1.replies.length = r.replies.length + 1 := by
  unfold mediaRouter at h
  split_ifs at h <;> simp only [Option.some.injEq, reduceCtorEq] at h <;> subst h <;>
    exact mediaReply_replies _ _ _ _

theorem mediaRouter_eq_none_iff (env : Env) (message : Message) (r : Run) :
    mediaRouter env message r = none ↔ message.type ∉ mediaTypes := by
  unfold mediaRouter
  simp only [mediaTypes, List.mem_cons, List.mem_singleton, List.not_mem_nil, or_false]
  split_ifs with h1 h2 h3 h4
  · simp [h1]
  · simp [h2]
  · rcases h3 with h | h <;> simp [h]
  · simp [h4]
  · simp only [not_or] at h3
    simp [h1, h2, h3, h4]

theorem textTry_replies (env : Env) (svc : GeminiService) (message : Message)
    (contact : Contact) (chat : Chat) (r : Run) :
    match textTry env svc message contact chat r with
    | (r1, .ok ()) => r1.replies.length = r.replies.length + 1
    | (r1, .error _) => r1.replies = r.replies := by
  unfold textTry
  cases chat.sendStateTyping with
  | error e => simp
  | ok u =>
    dsimp only
    cases generateResponse svc message.body (requestContext
      (appendUser env message (getOrCreate r.conversationContext message.«from» contact chat).2)) with
    | error e => simp [Run.call]
    | ok a => cases a <;> simp [Run.call, Run.reply]

theorem textBranch_replies (env : Env) (message : Message) (contact : Contact) (chat : Chat)
    (r : Run) :
    (textBranch env message contact chat r).replies.length =
      r.replies.length +
        (if message.type = "chat" ∧ truthy (trim message.body) = true then 1 else 0) := by
  unfold textBranch
  split_ifs with h
  · cases env.geminiService with
    | none => simp [Run.reply]
    | some svc =>
      have h1 := textTry_replies env svc message contact chat r
      dsimp only
      generalize textTry env svc message contact chat r = p at h1 ⊢
      rcases p with ⟨r1, (e | u)⟩
      · simp only at h1
        simp [Run.reply, h1]
      · simpa using h1
  · rfl

/-- C2 amended: for every message that is not rejected at step 1, whatever the lookups and the
service return or raise, no exception escapes the handler and at most one reply is sent; exactly
one reply is sent if and only if a lookup raises, or the lowercased and trimmed body is one of
the six commands, or the type is one of the five media types, or the type is `chat` and the
trimmed body is non-empty. In every other case no reply is sent. -/
theorem handler_reply_count (env : Env) (message : Message) (m : ConversationContext)
    (hfrom : message.«from» ≠ "status@broadcast") (hme : message.fromMe = false) :
    (handler env message m).2 = .ok () ∧
    (handler env message m).1.replies.length ≤ 1 ∧
    ((handler env message m).1.replies.length = 1 ↔
      ((∃ e, message.getContact = .error e) ∨ (∃ e, message.getChat = .error e) ∨
        messageBody env message ∈ ["!ping", "!help", "!info", "!time", "!clear", "!status"] ∨
        message.type ∈ ["image", "document", "ptt", "audio", "video"] ∨
        (message.type = "chat" ∧ truthy (trim message.body) = true))) := by
  cases hc : message.getContact with
  | error e =>
    have h : handler env message m =
        (Run.reply ⟨m, [], []⟩ "❌ Sorry, there was an unexpected error.", .ok ()) := by
      simp [handler, handlerTry, hfrom, hme, hc]
    rw [h]
    simp [Run.reply]
  | ok contact =>
    cases hch : message.getChat with
    | error e =>
      have h : handler env message m =
          (Run.reply ⟨m, [], []⟩ "❌ Sorry, there was an unexpected error.", .ok ()) := by
        simp [handler, handlerTry, hfrom, hme, hc, hch]
      rw [h]
      simp [Run.reply]
    | ok chat =>
      simp only [reduceCtorEq, exists_false, false_or]
      unfold handler
      rw [handlerTry_of_lookups env message _ contact chat hfrom hme hc hch]
      cases hr : commandRouter env message contact chat ⟨m, [], []⟩ with
      | some r1 =>
        have h1 := (commandRouter_replies env message contact chat _ r1 hr).1
        have h2 : messageBody env message ∈ commands := by
          rw [← commandRouter_isSome_iff env message contact chat ⟨m, [], []⟩, hr]
          rfl
        have h3 : messageBody env message ∈
            ["!ping", "!help", "!info", "!time", "!clear", "!status"] := h2
        simp only [h3, true_or, iff_true]
        simp at h1
        simp [h1]
      | none =>
        have h2 : messageBody env message ∉
            ["!ping", "!help", "!info", "!time", "!clear", "!status"] :=
          (commandRouter_eq_none_iff env message contact chat _).mp hr
        simp only [h2, false_or]
        cases hm : mediaRouter env message ⟨m, [], []⟩ with
        | some r1 =>
          have h1 := mediaRouter_replies env message _ r1 hm
          have h3 : message.type ∈ ["image", "document", "ptt", "audio", "video"] := by
            by_contra hn
            rw [(mediaRouter_eq_none_iff env message ⟨m, [], []⟩).mpr hn] at hm
            exact absurd hm (by simp)
          simp only [h3, true_or, iff_true]
          simp at h1
          simp [h1]
        | none =>
          have h3 : message.type ∉ ["image", "document", "ptt", "audio", "video"] :=
            (mediaRouter_eq_none_iff env message _).mp hm
          simp only [h3, false_or]
          have h1 := textBranch_replies env message contact chat ⟨m, [], []⟩
          simp only [List.length_nil, Nat.zero_add] at h1
          simp only [h1]
          split_ifs with h4
          · simp [h4]
          · simp [h4]

theorem sliceLast_eq (k : Nat) (arr : List α) :
    sliceLast k arr = arr.drop (arr.length - min k arr.length) ∧
    (sliceLast k arr).length = min k arr.length ∧ sliceLast k arr <:+ arr := by
  unfold sliceLast
  refine ⟨?_, ?_, List.drop_suffix _ _⟩
  · congr 1
    omega
  · rw [List.length_drop]
    omega

theorem mediaReply_calls (env : Env) (kind disabled : String) (r : Run) (c : GatewayCall)
    (h : c ∈ (mediaReply env kind disabled r).gatewayCalls) :
    c ∈ r.gatewayCalls ∨ c = .generateSmartReply kind := by
  unfold mediaReply at h
  cases hs : env.geminiService with
  | none =>
    rw [hs] at h
    exact Or.inl h
  | some svc =>
    rw [hs] at h
    simpa [Run.reply, Run.call] using h

theorem mediaRouter_calls (env : Env) (message : Message) (r r1 : Run) (c : GatewayCall)
    (h : mediaRouter env message r = some r1) (hc : c ∈ r1.gatewayCalls) :
    c ∈ r.gatewayCalls ∨ ∃ kind, c = .generateSmartReply kind := by
  unfold mediaRouter at h
  split_ifs at h <;> simp only [Option.some.injEq, reduceCtorEq] at h <;> subst h <;>
    rcases mediaReply_calls _ _ _ _ _ hc with h1 | h1
  all_goals first | exact Or.inl h1 | exact Or.inr ⟨_, h1⟩

theorem textBranch_calls (env : Env) (message : Message) (contact : Contact) (chat : Chat)
    (m : ConversationContext) (c : GatewayCall)
    (h : c ∈ (textBranch env message contact chat ⟨m, [], []⟩).gatewayCalls) :
    c = .generateResponse message.body
        (requestContext (appendUser env message (getOrCreate m message.«from» contact chat).2)) ∧
    ∃ context,
      (textBranch env message contact chat ⟨m, [], []⟩).conversationContext message.«from» =
        some context ∧
      (context = appendUser env message (getOrCreate m message.«from» contact chat).2 ∨
       ∃ t, context = appendAssistant env t
         (appendUser env message (getOrCreate m message.«from» contact chat).2)) := by
  unfold textBranch at h ⊢
  split_ifs at h ⊢ with h0
  · cases hs : env.geminiService with
    | none =>
      rw [hs] at h
      simp [Run.reply] at h
    | some svc =>
      rw [hs] at h
      dsimp only at h ⊢
      unfold textTry at h ⊢
      cases ht : chat.sendStateTyping with
      | error e =>
        rw [ht] at h
        simp [Run.reply] at h
      | ok u =>
        rw [ht] at h
        dsimp only at h ⊢
        cases hg : generateResponse svc message.body (requestContext
          (appendUser env message (getOrCreate m message.«from» contact chat).2)) with
        | error e =>
          rw [hg] at h
          simp [Run.reply, Run.call] at h
          simp [h, Run.reply, Run.call, ConversationContext.set]
        | ok a =>
          rw [hg] at h
          cases a with
          | success t usage =>
            simp [Run.reply, Run.call] at h
            simp only [h, Run.reply, Run.call, ConversationContext.set, if_true, true_and]
            exact ⟨_, rfl, Or.inr ⟨t, rfl⟩⟩
          | failure er fb =>
            simp [Run.reply, Run.call] at h
            simp [h, Run.reply, Run.call, ConversationContext.set]
  · simp at h

theorem textBranch_call_conditions (env : Env) (message : Message) (contact : Contact)
    (chat : Chat) (m : ConversationContext) (c : GatewayCall)
    (h : c ∈ (textBranch env message contact chat ⟨m, [], []⟩).gatewayCalls) :
    message.type = "chat" ∧ truthy (trim message.body) = true ∧
    chat.sendStateTyping = .ok () ∧ ∃ svc, env.geminiService = some svc := by
  unfold textBranch at h
  split_ifs at h with h0
  · refine ⟨h0.1, h0.2, ?_⟩
    cases hs : env.geminiService with
    | none =>
      rw [hs] at h
      simp [Run.reply] at h
    | some svc =>
      refine ⟨?_, svc, rfl⟩
      rw [hs] at h
      dsimp only at h
      unfold textTry at h
      cases ht : chat.sendStateTyping with
      | error e =>
        rw [ht] at h
        simp [Run.reply] at h
      | ok u => rfl
  · simp at h

theorem handler_calls (env : Env) (message : Message) (m : ConversationContext)
    (userMessage : String) (context : GenContext)
    (h : GatewayCall.generateResponse userMessage context ∈
      (handler env message m).1.gatewayCalls) :
    ∃ contact chat, message.getContact = .ok contact ∧ message.getChat = .ok chat ∧
      message.«from» ≠ "status@broadcast" ∧ message.fromMe = false ∧
      messageBody env message ∉ commands ∧
      handler env message m = (textBranch env message contact chat ⟨m, [], []⟩, .ok ()) := by
  unfold handler handlerTry at h
  split_ifs at h with h1 h2
  · simp at h
  · simp at h
  · cases hc : message.getContact with
    | error e => rw [hc] at h; simp [Run.reply] at h
    | ok contact =>
      cases hch : message.getChat with
      | error e => rw [hc, hch] at h; simp [Run.reply] at h
      | ok chat =>
        have hme : message.fromMe = false := by simpa using h2
        rw [hc, hch] at h
        dsimp only at h
        cases hr : commandRouter env message contact chat ⟨m, [], []⟩ with
        | some r1 =>
          rw [hr] at h
          have := (commandRouter_replies env message contact chat _ r1 hr).2
          simp [this] at h
        | none =>
          refine ⟨contact, chat, rfl, rfl, h1, hme,
            (commandRouter_eq_none_iff env message contact chat _).mp hr, ?_⟩
          unfold handler
          rw [handlerTry_of_lookups env message _ contact chat h1 hme hc hch, hr]
          rw [hr] at h
          dsimp only at h ⊢
          cases hm : mediaRouter env message ⟨m, [], []⟩ with
          | some r1 =>
            rw [hm] at h
            rcases mediaRouter_calls env message _ r1 _ hm h with h3 | ⟨k, h3⟩
            · simp at h3
            · simp at h3
          | none => rfl

/-- C7: for every call to `generateResponse` made by the handler, the `previousMessages` passed
have length at most 5 and are the last `min 5 n` entries, in order, of the history of length `n`
stored at that moment (the history after the user turn was appended); building the request
leaves that history as it is: after the run the stored history is that same list, or that list
followed by the assistant turn. -/
theorem request_recent_turns (env : Env) (message : Message) (m : ConversationContext)
    (userMessage : String) (context : GenContext)
    (h : GatewayCall.generateResponse userMessage context ∈
      (handler env message m).1.gatewayCalls) :
    ∃ contact chat stored, message.getContact = .ok contact ∧ message.getChat = .ok chat ∧
      stored = appendUser env message (getOrCreate m message.«from» contact chat).2 ∧
      ∃ previousMessages, context.previousMessages = some previousMessages ∧
        previousMessages.length ≤ 5 ∧
        previousMessages.length = min 5 stored.messages.length ∧
        previousMessages =
          stored.messages.drop (stored.messages.length - min 5 stored.messages.length) ∧
        ∃ final, (handler env message m).1.conversationContext message.«from» = some final ∧
          (final.messages = stored.messages ∨
           ∃ t, final.messages =
             stored.messages ++ [⟨"AI Assistant", t, env.assistantDate⟩]) := by
  obtain ⟨contact, chat, hc, hch, _, _, _, hh⟩ :=
    handler_calls env message m userMessage context h
  rw [hh] at h ⊢
  obtain ⟨hcall, final, hfinal, hcases⟩ := textBranch_calls env message contact chat m _ h
  refine ⟨contact, chat, _, hc, hch, rfl, ?_⟩
  simp only [GatewayCall.generateResponse.injEq] at hcall
  obtain ⟨h1, h2, h3⟩ := sliceLast_eq 5
    (appendUser env message (getOrCreate m message.«from» contact chat).2).messages
  refine ⟨sliceLast 5
    (appendUser env message (getOrCreate m message.«from» contact chat).2).messages,
    ?_, ?_, h2, h1, final, hfinal, ?_⟩
  · rw [hcall.2]
    rfl
  · rw [h2]
    exact Nat.min_le_left _ _
  · rcases hcases with h4 | ⟨t, h4⟩
    · exact Or.inl (by rw [h4])
    · exact Or.inr ⟨t, by rw [h4]; rfl⟩

theorem request_recent_turns_witness :
    ∃ contact chat stored,
      (inbound "chat" "Hello").getContact = .ok contact ∧
      (inbound "chat" "Hello").getChat = .ok chat ∧
      stored = appendUser (processWith (some (answeringService "Hi!"))) (inbound "chat" "Hello")
        (getOrCreate threeTurns (inbound "chat" "Hello").«from» contact chat).2 ∧
      ∃ previousMessages,
        (requestContext ⟨[⟨"Ann", "Hello", 1⟩, ⟨"AI Assistant", "Hi!", 2⟩,
          ⟨"Ann", "How are you?", 3⟩, ⟨"Ann", "Hello", 1⟩], "Ann", "individual"⟩).previousMessages =
            some previousMessages ∧
        previousMessages.length ≤ 5 ∧
        previousMessages.length = min 5 stored.messages.length ∧
        previousMessages =
          stored.messages.drop (stored.messages.length - min 5 stored.messages.length) ∧
        ∃ final,
          (handler (processWith (some (answeringService "Hi!"))) (inbound "chat" "Hello")
            threeTurns).1.conversationContext (inbound "chat" "Hello").«from» = some final ∧
          (final.messages = stored.messages ∨
           ∃ t, final.messages = stored.messages ++
             [⟨"AI Assistant", t, (processWith (some (answeringService "Hi!"))).assistantDate⟩]) :=
  request_recent_turns (processWith (some (answeringService "Hi!"))) (inbound "chat" "Hello")
    threeTurns "Hello"
    (requestContext ⟨[⟨"Ann", "Hello", 1⟩, ⟨"AI Assistant", "Hi!", 2⟩,
      ⟨"Ann", "How are you?", 3⟩, ⟨"Ann", "Hello", 1⟩], "Ann", "individual"⟩)
    (by decide)

/-- C5: when the service is configured and the call to `generateResponse` made while handling
a message returns a failure result, the stored history of the conversation after the run is the
history right after the user turn was appended and truncated (no assistant turn is added), and
the one reply sent is the `fallbackResponse` of the result. -/
theorem failure_keeps_history (env : Env) (message : Message) (m : ConversationContext)
    (svc : GeminiService) (userMessage : String) (context : GenContext)
    (error : MessageValue) (fallbackResponse : String)
    (hsvc : env.geminiService = some svc)
    (hcall : GatewayCall.generateResponse userMessage context ∈
      (handler env message m).1.gatewayCalls)
    (hgen : generateResponse svc userMessage context = .ok (.failure error fallbackResponse)) :
    ∃ contact chat, message.getContact = .ok contact ∧ message.getChat = .ok chat ∧
      (handler env message m).1.conversationContext message.«from» =
        some (appendUser env message (getOrCreate m message.«from» contact chat).2) ∧
      (handler env message m).1.replies = [fallbackResponse] ∧
      (handler env message m).2 = .ok () := by
  obtain ⟨contact, chat, hc, hch, hfrom, hme, hcmd, hh⟩ :=
    handler_calls env message m userMessage context hcall
  rw [hh] at hcall
  obtain ⟨htype, hbody, htyping, svc1, hsvc1⟩ :=
    textBranch_call_conditions env message contact chat m _ hcall
  obtain ⟨hreq, _⟩ := textBranch_calls env message contact chat m _ hcall
  simp only [GatewayCall.generateResponse.injEq] at hreq
  rw [hreq.1, hreq.2] at hgen
  exact ⟨contact, chat, hc, hch,
    text_failure_outcome env message m contact chat svc error fallbackResponse
      hfrom hme hc hch hcmd htype hbody hsvc htyping hgen⟩

theorem failure_keeps_history_witness :
    ∃ contact chat, (inbound "chat" "Hello").getContact = .ok contact ∧
      (inbound "chat" "Hello").getChat = .ok chat ∧
      (handler (processWith (some (throwingService (.value (.string "QUOTA_EXCEEDED")))))
          (inbound "chat" "Hello") threeTurns).1.conversationContext
            (inbound "chat" "Hello").«from» =
        some (appendUser (processWith (some (throwingService (.value (.string "QUOTA_EXCEEDED")))))
          (inbound "chat" "Hello")
          (getOrCreate threeTurns (inbound "chat" "Hello").«from» contact chat).2) ∧
      (handler (processWith (some (throwingService (.value (.string "QUOTA_EXCEEDED")))))
          (inbound "chat" "Hello") threeTurns).1.replies =
        ["⚠️ AI service is temporarily unavailable due to quota limits."] ∧
      (handler (processWith (some (throwingService (.value (.string "QUOTA_EXCEEDED")))))
          (inbound "chat" "Hello") threeTurns).2 = .ok () :=
  failure_keeps_history (processWith (some (throwingService (.value (.string "QUOTA_EXCEEDED")))))
    (inbound "chat" "Hello") threeTurns (throwingService (.value (.string "QUOTA_EXCEEDED"))) "Hello"
    (requestContext ⟨[⟨"Ann", "Hello", 1⟩, ⟨"AI Assistant", "Hi!", 2⟩,
      ⟨"Ann", "How are you?", 3⟩, ⟨"Ann", "Hello", 1⟩], "Ann", "individual"⟩)
    (.string "API quota exceeded.")
    "⚠️ AI service is temporarily unavailable due to quota limits." rfl (by decide) rfl

/-- C6: when the conversation has no stored context, the service is configured and the call to
`generateResponse` made while handling the message returns a success with text `t`, the stored
history after the run has exactly two turns: the user turn (sender the display name of the
conversation, text the body of the message) and the assistant turn (sender `AI Assistant`, text
`t`); and the one reply sent is `t`. -/
theorem first_success_history (env : Env) (message : Message) (m : ConversationContext)
    (svc : GeminiService) (userMessage : String) (context : GenContext)
    (t : String) (usage : Usage)
    (hsvc : env.geminiService = some svc)
    (hnew : m message.«from» = none)
    (hcall : GatewayCall.generateResponse userMessage context ∈
      (handler env message m).1.gatewayCalls)
    (hgen : generateResponse svc userMessage context = .ok (.success t usage)) :
    ∃ contact, message.getContact = .ok contact ∧
      (∃ final, (handler env message m).1.conversationContext message.«from» = some final ∧
        final.userName = orElse2 contact.name contact.pushname "User" ∧
        final.messages =
          [⟨final.userName, message.body, env.userDate⟩,
           ⟨"AI Assistant", t, env.assistantDate⟩]) ∧
      (handler env message m).1.replies = [t] := by
  obtain ⟨contact, chat, hc, hch, hfrom, hme, hcmd, hh⟩ :=
    handler_calls env message m userMessage context hcall
  rw [hh] at hcall
  obtain ⟨htype, hbody, htyping, svc1, hsvc1⟩ :=
    textBranch_call_conditions env message contact chat m _ hcall
  obtain ⟨hreq, _⟩ := textBranch_calls env message contact chat m _ hcall
  simp only [GatewayCall.generateResponse.injEq] at hreq
  rw [hreq.1, hreq.2] at hgen
  exact ⟨contact, hc,
    text_success_outcome env message m contact chat svc t usage
      hfrom hme hc hch hcmd htype hbody hsvc htyping hnew hgen⟩

theorem first_success_history_witness :
    ∃ contact, (inbound "chat" "Hello").getContact = .ok contact ∧
      (∃ final,
        (handler (processWith (some (answeringService " Hi there! 👋 "))) (inbound "chat" "Hello")
          noConversations).1.conversationContext (inbound "chat" "Hello").«from» = some final ∧
        final.userName = orElse2 contact.name contact.pushname "User" ∧
        final.messages =
          [⟨final.userName, (inbound "chat" "Hello").body,
              (processWith (some (answeringService " Hi there! 👋 "))).userDate⟩,
           ⟨"AI Assistant", "Hi there! 👋",
              (processWith (some (answeringService " Hi there! 👋 "))).assistantDate⟩]) ∧
      (handler (processWith (some (answeringService " Hi there! 👋 "))) (inbound "chat" "Hello")
        noConversations).1.replies = ["Hi there! 👋"] :=
  first_success_history (processWith (some (answeringService " Hi there! 👋 ")))
    (inbound "chat" "Hello") noConversations (answeringService " Hi there! 👋 ") "Hello"
    (requestContext ⟨[⟨"Ann", "Hello", 1⟩], "Ann", "individual"⟩) "Hi there! 👋" ⟨0, 0, 0⟩
    rfl rfl (by decide) rfl

theorem clear_command_witness :
    (handler (processWith (some (answeringService "Hi!"))) (inbound "chat" " !Clear ")
      threeTurns).1.conversationContext (inbound "chat" " !Clear ").«from» = none ∧
    (∀ k, k ≠ (inbound "chat" " !Clear ").«from» →
      (handler (processWith (some (answeringService "Hi!"))) (inbound "chat" " !Clear ")
        threeTurns).1.conversationContext k = threeTurns k) ∧
    (handler (processWith (some (answeringService "Hi!"))) (inbound "chat" " !Clear ")
      threeTurns).1.replies = ["🗑️ Conversation context cleared!"] ∧
    (handler (processWith (some (answeringService "Hi!"))) (inbound "chat" " !Clear ")
      threeTurns).1.gatewayCalls = [] ∧
    (handler (processWith (some (answeringService "Hi!"))) (inbound "chat" " !Clear ")
      threeTurns).2 = .ok () ∧
    ∀ contact2 chat2,
      (getOrCreate
        (handler (processWith (some (answeringService "Hi!"))) (inbound "chat" " !Clear ")
          threeTurns).1.conversationContext
        (inbound "chat" " !Clear ").«from» contact2 chat2).2.messages = [] :=
  clear_command (processWith (some (answeringService "Hi!"))) (inbound "chat" " !Clear ")
    threeTurns annContact annChat (by decide) rfl rfl rfl (by decide)

/-- C8 as stated fails: a message with body `!clear` that the bot itself sent is ignored, and
one whose contact lookup rejects ends in the outer `catch`; in both runs the three stored turns
of the conversation are kept and the confirmation is not sent. -/
theorem clear_not_reached :
    messageBody (processWith (some (answeringService "Hi!"))) ownClear = "!clear" ∧
    (handler (processWith (some (answeringService "Hi!"))) ownClear
      threeTurns).1.conversationContext "c" = threeTurns "c" ∧
    (threeTurns "c").map (fun context => context.messages.length) = some 3 ∧
    (handler (processWith (some (answeringService "Hi!"))) ownClear threeTurns).1.replies = [] ∧
    messageBody (processWith (some (answeringService "Hi!"))) lostContactClear = "!clear" ∧
    (handler (processWith (some (answeringService "Hi!"))) lostContactClear
      threeTurns).1.conversationContext "c" = threeTurns "c" ∧
    (handler (processWith (some (answeringService "Hi!"))) lostContactClear
      threeTurns).1.replies = ["❌ Sorry, there was an unexpected error."] := by
  decide

theorem handler_reply_count_witness :
    (handler (processWith none) (inbound "image" "") noConversations).2 = .ok () ∧
    (handler (processWith none) (inbound "image" "") noConversations).1.replies.length ≤ 1 ∧
    ((handler (processWith none) (inbound "image" "") noConversations).1.replies.length = 1 ↔
      ((∃ e, (inbound "image" "").getContact = .error e) ∨
        (∃ e, (inbound "image" "").getChat = .error e) ∨
        messageBody (processWith none) (inbound "image" "") ∈
          ["!ping", "!help", "!info", "!time", "!clear", "!status"] ∨
        (inbound "image" "").type ∈ ["image", "document", "ptt", "audio", "video"] ∨
        ((inbound "image" "").type = "chat" ∧
          truthy (trim (inbound "image" "").body) = true))) :=
  handler_reply_count (processWith none) (inbound "image" "") noConversations (by decide) rfl

/-- C2 as stated fails: a message of type `sticker`, and a `chat` message whose body is blank,
pass step 1 and get no reply at all. -/
theorem sticker_no_reply :
    (inbound "sticker" "").«from» ≠ "status@broadcast" ∧
    (inbound "sticker" "").fromMe = false ∧
    (handler (processWith (some (answeringService "Hi!"))) (inbound "sticker" "")
      noConversations).1.replies = [] ∧
    (handler (processWith (some (answeringService "Hi!"))) (inbound "chat" "   ")
      noConversations).1.replies = [] := by
  decide

theorem command_recognition_witness :
    commandRouter (processWith none) (inbound "chat" " !PING ") annContact annChat
        ⟨noConversations, [], []⟩ =
      commandRouter (processWith none) { inbound "chat" " !PING " with body := "!ping" }
        annContact annChat ⟨noConversations, [], []⟩ ∧
    commandRouter (processWith none) (inbound "chat" "!ping now") annContact annChat
        ⟨noConversations, [], []⟩ = none :=
  ⟨command_recognition.1 (processWith none) (inbound "chat" " !PING ") "!ping" annContact
      annChat ⟨noConversations, [], []⟩ (by decide),
    command_recognition.2.2.2.1 (processWith none) (inbound "chat" "!ping now") annContact
      annChat ⟨noConversations, [], []⟩ rfl⟩

/-! ## The bound on the stored history -/

theorem appendUser_length (env : Env) (message : Message) (context : Context) :
    (appendUser env message context).messages.length ≤ 10 := by
  unfold appendUser
  dsimp only
  split_ifs with h
  · rw [(sliceLast_eq 10 _).2.1]
    exact Nat.min_le_left _ _
  · exact Nat.le_of_not_lt h

theorem appendUser_suffix (env : Env) (message : Message) (context : Context) :
    (appendUser env message context).messages <:+
      context.messages ++ [⟨context.userName, message.body, env.userDate⟩] := by
  unfold appendUser
  dsimp only
  split_ifs with h
  · exact (sliceLast_eq 10 _).2.2
  · exact List.suffix_refl _

theorem appendAssistant_length (env : Env) (response : String) (context : Context) :
    (appendAssistant env response context).messages.length = context.messages.length + 1 := by
  simp [appendAssistant]

/-- C1 at the failing input: six text messages of one conversation, each answered with a
Success. After five of them the stored history has 10 entries; the sixth is answered too, and
after its assistant turn is pushed the stored history has 11 entries, since no truncation
follows that push. -/
theorem history_exceeds_ten :
    ((handleAll noConversations
        (List.replicate 5 (processWith (some (answeringService "ok")), inbound "chat" "hi")))
      "c").map (fun context => context.messages.length) = some 10 ∧
    (handler (processWith (some (answeringService "ok"))) (inbound "chat" "hi")
      (handleAll noConversations
        (List.replicate 5 (processWith (some (answeringService "ok")), inbound "chat" "hi")))
      ).1.replies = ["ok"] ∧
    ((handleAll noConversations
        (List.replicate 6 (processWith (some (answeringService "ok")), inbound "chat" "hi")))
      "c").map (fun context => context.messages.length) = some 11 := by
  decide

end Chatbot
